import Mathlib

/-!
Verification of the association-metrics module (`metrics-example.py`).

The module computes pairwise association metrics between items co-occurring
in "baskets".  A basket is a Python `set` of item labels (strings), modelled
here as a `Finset String`; a corpus is a Python `list` of baskets, modelled
as a `List Basket`.  Integer counts are `Nat`; Python float quantities that
the code obtains by exact integer division are modelled as exact rationals
(`Rat`), and the logarithm-valued metrics live in `Real`.
-/

abbrev Item := String
abbrev Basket := Finset Item

/-- `sum([1 for b in baskets if i in b and j in b])` — number of baskets
containing both `i` and `j` (cell `O_11`, and `O` in
`local_mutual_information`). -/
def count11 (i j : Item) (baskets : List Basket) : ℕ :=
  baskets.countP fun b => decide (i ∈ b) && decide (j ∈ b)

/-- `sum([1 for b in baskets if i in b and j not in b])` — cell `O_12`. -/
def count12 (i j : Item) (baskets : List Basket) : ℕ :=
  baskets.countP fun b => decide (i ∈ b) && !decide (j ∈ b)

/-- `sum([1 for b in baskets if i not in b and j in b])` — cell `O_21`. -/
def count21 (i j : Item) (baskets : List Basket) : ℕ :=
  baskets.countP fun b => !decide (i ∈ b) && decide (j ∈ b)

/-- `sum([1 for b in baskets if i not in b and j not in b])` — cell `O_22`. -/
def count22 (i j : Item) (baskets : List Basket) : ℕ :=
  baskets.countP fun b => !decide (i ∈ b) && !decide (j ∈ b)

/-- `sum([1 for b in baskets if i in b])` — the `freq_i` / `freq_j`
quantities of `local_mutual_information`. -/
def freq (i : Item) (baskets : List Basket) : ℕ :=
  baskets.countP fun b => decide (i ∈ b)

/-- `sum([len(b) for b in baskets])` — the `N` of
`local_mutual_information`: the total item-occurrence count, not the basket
count. -/
def totalOccurrences (baskets : List Basket) : ℕ :=
  (baskets.map Finset.card).sum

/-- The fields stored by `ContingencyTable.__init__`.  Observed counts and
marginals are integers; the expected counts `E_xy` are obtained by a
division and stored as exact rationals. -/
structure ContingencyTable where
  i : Item
  j : Item
  baskets : List Basket
  O_11 : ℕ
  O_12 : ℕ
  O_21 : ℕ
  O_22 : ℕ
  C_1 : ℕ
  C_2 : ℕ
  R_1 : ℕ
  R_2 : ℕ
  N : ℕ
  E_11 : ℚ
  E_21 : ℚ
  E_12 : ℚ
  E_22 : ℚ
deriving DecidableEq

/-- The pure computation performed by `ContingencyTable.__init__` (all
assignments in source order): the four observed cells, the marginals
`C_1 = O_11 + O_21`, `C_2 = O_12 + O_22`, `R_1 = O_11 + O_12`,
`R_2 = O_21 + O_22`, the total `N = C_1 + C_2`, and the expectations
`E_xy = R_x * C_y / N`. -/
def ContingencyTable.ofCorpus (i j : Item) (baskets : List Basket) :
    ContingencyTable :=
  let O_11 := count11 i j baskets
  let O_12 := count12 i j baskets
  let O_21 := count21 i j baskets
  let O_22 := count22 i j baskets
  let C_1 := O_11 + O_21
  let C_2 := O_12 + O_22
  let R_1 := O_11 + O_12
  let R_2 := O_21 + O_22
  let N := C_1 + C_2
  { i := i, j := j, baskets := baskets,
    O_11 := O_11, O_12 := O_12, O_21 := O_21, O_22 := O_22,
    C_1 := C_1, C_2 := C_2, R_1 := R_1, R_2 := R_2, N := N,
    E_11 := ((R_1 * C_1 : ℕ) : ℚ) / ((N : ℕ) : ℚ),
    E_21 := ((R_2 * C_1 : ℕ) : ℚ) / ((N : ℕ) : ℚ),
    E_12 := ((R_1 * C_2 : ℕ) : ℚ) / ((N : ℕ) : ℚ),
    E_22 := ((R_2 * C_2 : ℕ) : ℚ) / ((N : ℕ) : ℚ) }

/-- Errors a call into the module can raise.  `zeroDivisionError` is
Python's built-in `ZeroDivisionError` (raised by `x / 0` on integers);
`invalidInput` stands for a descriptive input-validation error with a
message, which the spec's error-handling policy asks for but which the
source never raises. -/
inductive PyError where
  | zeroDivisionError
  | invalidInput (msg : String)
deriving DecidableEq, Repr

/-- Whether a computation result is the `invalidInput` kind of failure. -/
def isInvalidInputError : Except PyError ContingencyTable → Bool
  | .error (.invalidInput _) => true
  | _ => false

/-- `ContingencyTable(i, j, baskets)` as a fallible computation: Python
raises `ZeroDivisionError` at `self.E_11 = self.R_1 * self.C_1 / self.N`
when `N = 0` (integer marginals divided by the integer total); otherwise
construction returns the fully populated table. -/
def ContingencyTable.make (i j : Item) (baskets : List Basket) :
    Except PyError ContingencyTable :=
  if (ContingencyTable.ofCorpus i j baskets).N = 0 then
    .error .zeroDivisionError
  else
    .ok (ContingencyTable.ofCorpus i j baskets)

/-- One summand of `mutual_information`:
`O * math.log2(O / E) if O > 0 else 0`. -/
noncomputable def miTerm (O : ℕ) (E : ℚ) : ℝ :=
  if 0 < O then (O : ℝ) * Real.logb 2 ((O : ℝ) / (E : ℝ)) else 0

/-- One summand of `log_likelihood`:
`O * math.log(O / E) if O > 0 else 0`. -/
noncomputable def llTerm (O : ℕ) (E : ℚ) : ℝ :=
  if 0 < O then (O : ℝ) * Real.log ((O : ℝ) / (E : ℝ)) else 0

/-- `ContingencyTable.mutual_information`: the four guarded summands
`x11 + x12 + x21 + x22`. -/
noncomputable def ContingencyTable.mutual_information
    (t : ContingencyTable) : ℝ :=
  miTerm t.O_11 t.E_11 + miTerm t.O_12 t.E_12 +
    miTerm t.O_21 t.E_21 + miTerm t.O_22 t.E_22

/-- `ContingencyTable.log_likelihood`:
`2 * (x11 + x12 + x21 + x22)` with natural-log summands. -/
noncomputable def ContingencyTable.log_likelihood
    (t : ContingencyTable) : ℝ :=
  2 * (llTerm t.O_11 t.E_11 + llTerm t.O_12 t.E_12 +
    llTerm t.O_21 t.E_21 + llTerm t.O_22 t.E_22)

/-- `local_mutual_information(i, j, baskets)`: the observed co-occurrence
count `O`, the `O == 0` short-circuit returning `0`, otherwise
`math.log2(O / E)` with `E = freq_i * freq_j / N` computed by exact
division (`N` = total item occurrences). -/
noncomputable def local_mutual_information
    (i j : Item) (baskets : List Basket) : ℝ :=
  if count11 i j baskets = 0 then 0
  else
    Real.logb 2 ((count11 i j baskets : ℝ) /
      ((((freq i baskets * freq j baskets : ℕ) : ℚ) /
        ((totalOccurrences baskets : ℕ) : ℚ) : ℚ) : ℝ))

/-! ### Bookkeeping lemmas about the embedded definitions -/

theorem countP_ext (p q : Basket → Bool) (c : List Basket)
    (h : ∀ b, p b = q b) : c.countP p = c.countP q := by
  rw [funext h]

theorem ofCorpus_O_11 (i j : Item) (c : List Basket) :
    (ContingencyTable.ofCorpus i j c).O_11 = count11 i j c := rfl

theorem ofCorpus_O_12 (i j : Item) (c : List Basket) :
    (ContingencyTable.ofCorpus i j c).O_12 = count12 i j c := rfl

theorem ofCorpus_O_21 (i j : Item) (c : List Basket) :
    (ContingencyTable.ofCorpus i j c).O_21 = count21 i j c := rfl

theorem ofCorpus_O_22 (i j : Item) (c : List Basket) :
    (ContingencyTable.ofCorpus i j c).O_22 = count22 i j c := rfl

theorem ofCorpus_C_1 (i j : Item) (c : List Basket) :
    (ContingencyTable.ofCorpus i j c).C_1 = count11 i j c + count21 i j c := rfl

theorem ofCorpus_C_2 (i j : Item) (c : List Basket) :
    (ContingencyTable.ofCorpus i j c).C_2 = count12 i j c + count22 i j c := rfl

theorem ofCorpus_R_1 (i j : Item) (c : List Basket) :
    (ContingencyTable.ofCorpus i j c).R_1 = count11 i j c + count12 i j c := rfl

theorem ofCorpus_R_2 (i j : Item) (c : List Basket) :
    (ContingencyTable.ofCorpus i j c).R_2 = count21 i j c + count22 i j c := rfl

theorem ofCorpus_N (i j : Item) (c : List Basket) :
    (ContingencyTable.ofCorpus i j c).N =
      (count11 i j c + count21 i j c) + (count12 i j c + count22 i j c) := rfl

theorem ofCorpus_E_11 (i j : Item) (c : List Basket) :
    (ContingencyTable.ofCorpus i j c).E_11 =
      (((count11 i j c + count12 i j c) * (count11 i j c + count21 i j c) : ℕ) : ℚ) /
        ((((count11 i j c + count21 i j c) + (count12 i j c + count22 i j c) : ℕ)) : ℚ) := rfl

theorem ofCorpus_E_21 (i j : Item) (c : List Basket) :
    (ContingencyTable.ofCorpus i j c).E_21 =
      (((count21 i j c + count22 i j c) * (count11 i j c + count21 i j c) : ℕ) : ℚ) /
        ((((count11 i j c + count21 i j c) + (count12 i j c + count22 i j c) : ℕ)) : ℚ) := rfl

theorem ofCorpus_E_12 (i j : Item) (c : List Basket) :
    (ContingencyTable.ofCorpus i j c).E_12 =
      (((count11 i j c + count12 i j c) * (count12 i j c + count22 i j c) : ℕ) : ℚ) /
        ((((count11 i j c + count21 i j c) + (count12 i j c + count22 i j c) : ℕ)) : ℚ) := rfl

theorem ofCorpus_E_22 (i j : Item) (c : List Basket) :
    (ContingencyTable.ofCorpus i j c).E_22 =
      (((count21 i j c + count22 i j c) * (count12 i j c + count22 i j c) : ℕ) : ℚ) /
        ((((count11 i j c + count21 i j c) + (count12 i j c + count22 i j c) : ℕ)) : ℚ) := rfl

theorem counts_partition (i j : Item) (c : List Basket) :
    count11 i j c + count12 i j c + count21 i j c + count22 i j c = c.length := by
  induction c with
  | nil => rfl
  | cons b t ih =>
    simp only [count11, count12, count21, count22, List.countP_cons,
      List.length_cons] at ih ⊢
    by_cases hi : i ∈ b <;> by_cases hj : j ∈ b <;> simp [hi, hj] <;> omega

theorem ofCorpus_N_eq_length (i j : Item) (c : List Basket) :
    (ContingencyTable.ofCorpus i j c).N = c.length := by
  have h := counts_partition i j c
  rw [ofCorpus_N]
  omega

theorem make_eq_ok (i j : Item) (c : List Basket) (t : ContingencyTable)
    (hm : ContingencyTable.make i j c = .ok t) :
    t = ContingencyTable.ofCorpus i j c := by
  unfold ContingencyTable.make at hm
  split at hm
  · exact absurd hm (by simp)
  · exact (Except.ok.inj hm).symm

theorem make_ok_of_ne_nil (i j : Item) (c : List Basket) (hc : c ≠ []) :
    ContingencyTable.make i j c = .ok (ContingencyTable.ofCorpus i j c) := by
  have hN : (ContingencyTable.ofCorpus i j c).N ≠ 0 := by
    rw [ofCorpus_N_eq_length]
    simpa [List.length_eq_zero] using hc
  simp [ContingencyTable.make, hN]

theorem count11_swap (i j : Item) (c : List Basket) :
    count11 j i c = count11 i j c :=
  countP_ext _ _ _ fun _ => Bool.and_comm _ _

theorem count12_swap (i j : Item) (c : List Basket) :
    count12 j i c = count21 i j c :=
  countP_ext _ _ _ fun _ => Bool.and_comm _ _

theorem count21_swap (i j : Item) (c : List Basket) :
    count21 j i c = count12 i j c :=
  countP_ext _ _ _ fun _ => Bool.and_comm _ _

theorem count22_swap (i j : Item) (c : List Basket) :
    count22 j i c = count22 i j c :=
  countP_ext _ _ _ fun _ => Bool.and_comm _ _

theorem count11_self (i : Item) (c : List Basket) :
    count11 i i c = freq i c :=
  countP_ext _ _ _ fun _ => Bool.and_self _

theorem count12_self (i : Item) (c : List Basket) :
    count12 i i c = 0 :=
  List.countP_eq_zero.mpr fun b _ => by simp

theorem count21_self (i : Item) (c : List Basket) :
    count21 i i c = 0 :=
  List.countP_eq_zero.mpr fun b _ => by simp

/-! ### Spec-side formulas and cast lemmas -/

/-- The spec's formula for `mutual_information`: sum over the four cells of
`O_cell * log2(O_cell / E_cell)` with `E_cell` spelled out as
(row marginal * column marginal) / N, a zero cell contributing `0`. -/
noncomputable def miSpec (t : ContingencyTable) : ℝ :=
  (if 0 < t.O_11 then
    (t.O_11 : ℝ) * Real.logb 2 ((t.O_11 : ℝ) / ((t.R_1 : ℝ) * (t.C_1 : ℝ) / (t.N : ℝ)))
  else 0) +
  (if 0 < t.O_12 then
    (t.O_12 : ℝ) * Real.logb 2 ((t.O_12 : ℝ) / ((t.R_1 : ℝ) * (t.C_2 : ℝ) / (t.N : ℝ)))
  else 0) +
  (if 0 < t.O_21 then
    (t.O_21 : ℝ) * Real.logb 2 ((t.O_21 : ℝ) / ((t.R_2 : ℝ) * (t.C_1 : ℝ) / (t.N : ℝ)))
  else 0) +
  (if 0 < t.O_22 then
    (t.O_22 : ℝ) * Real.logb 2 ((t.O_22 : ℝ) / ((t.R_2 : ℝ) * (t.C_2 : ℝ) / (t.N : ℝ)))
  else 0)

/-- The spec's formula for `log_likelihood`: twice the sum over the four
cells of `O_cell * ln(O_cell / E_cell)` with `E_cell` spelled out as
(row marginal * column marginal) / N, a zero cell contributing `0`. -/
noncomputable def llSpec (t : ContingencyTable) : ℝ :=
  2 * ((if 0 < t.O_11 then
    (t.O_11 : ℝ) * Real.log ((t.O_11 : ℝ) / ((t.R_1 : ℝ) * (t.C_1 : ℝ) / (t.N : ℝ)))
  else 0) +
  (if 0 < t.O_12 then
    (t.O_12 : ℝ) * Real.log ((t.O_12 : ℝ) / ((t.R_1 : ℝ) * (t.C_2 : ℝ) / (t.N : ℝ)))
  else 0) +
  (if 0 < t.O_21 then
    (t.O_21 : ℝ) * Real.log ((t.O_21 : ℝ) / ((t.R_2 : ℝ) * (t.C_1 : ℝ) / (t.N : ℝ)))
  else 0) +
  (if 0 < t.O_22 then
    (t.O_22 : ℝ) * Real.log ((t.O_22 : ℝ) / ((t.R_2 : ℝ) * (t.C_2 : ℝ) / (t.N : ℝ)))
  else 0))

theorem ofCorpus_E_11_cast (i j : Item) (c : List Basket) :
    (((ContingencyTable.ofCorpus i j c).E_11 : ℚ) : ℝ) =
      ((ContingencyTable.ofCorpus i j c).R_1 : ℝ) *
        ((ContingencyTable.ofCorpus i j c).C_1 : ℝ) /
        ((ContingencyTable.ofCorpus i j c).N : ℝ) := by
  rw [ofCorpus_E_11, ofCorpus_R_1, ofCorpus_C_1, ofCorpus_N]
  push_cast
  ring

theorem ofCorpus_E_12_cast (i j : Item) (c : List Basket) :
    (((ContingencyTable.ofCorpus i j c).E_12 : ℚ) : ℝ) =
      ((ContingencyTable.ofCorpus i j c).R_1 : ℝ) *
        ((ContingencyTable.ofCorpus i j c).C_2 : ℝ) /
        ((ContingencyTable.ofCorpus i j c).N : ℝ) := by
  rw [ofCorpus_E_12, ofCorpus_R_1, ofCorpus_C_2, ofCorpus_N]
  push_cast
  ring

theorem ofCorpus_E_21_cast (i j : Item) (c : List Basket) :
    (((ContingencyTable.ofCorpus i j c).E_21 : ℚ) : ℝ) =
      ((ContingencyTable.ofCorpus i j c).R_2 : ℝ) *
        ((ContingencyTable.ofCorpus i j c).C_1 : ℝ) /
        ((ContingencyTable.ofCorpus i j c).N : ℝ) := by
  rw [ofCorpus_E_21, ofCorpus_R_2, ofCorpus_C_1, ofCorpus_N]
  push_cast
  ring

theorem ofCorpus_E_22_cast (i j : Item) (c : List Basket) :
    (((ContingencyTable.ofCorpus i j c).E_22 : ℚ) : ℝ) =
      ((ContingencyTable.ofCorpus i j c).R_2 : ℝ) *
        ((ContingencyTable.ofCorpus i j c).C_2 : ℝ) /
        ((ContingencyTable.ofCorpus i j c).N : ℝ) := by
  rw [ofCorpus_E_22, ofCorpus_R_2, ofCorpus_C_2, ofCorpus_N]
  push_cast
  ring

/-- The corpus of the spec's concrete scenario:
`[{"A","B"}, {"A"}, {"B"}, {"C"}]`. -/
def corpusW : List Basket := [{"A", "B"}, {"A"}, {"B"}, {"C"}]

/-! ### Claim theorems -/

/-- C1: for every non-empty corpus and pair of items, `mutual_information`
returns the sum over the four cells of `O_cell * log2(O_cell / E_cell)`
(zero cells contributing `0`) and `log_likelihood` returns twice the
natural-log analogue, with `E_cell = (row marginal * column marginal) / N`
in both. -/
theorem mi_ll_match_spec_formula (i j : Item) (c : List Basket)
    (_hc : c ≠ []) (t : ContingencyTable)
    (hm : ContingencyTable.make i j c = .ok t) :
    t.mutual_information = miSpec t ∧ t.log_likelihood = llSpec t := by
  obtain rfl : t = ContingencyTable.ofCorpus i j c := make_eq_ok i j c t hm
  constructor
  · simp only [ContingencyTable.mutual_information, miSpec, miTerm,
      ofCorpus_E_11_cast, ofCorpus_E_12_cast, ofCorpus_E_21_cast,
      ofCorpus_E_22_cast]
  · simp only [ContingencyTable.log_likelihood, llSpec, llTerm,
      ofCorpus_E_11_cast, ofCorpus_E_12_cast, ofCorpus_E_21_cast,
      ofCorpus_E_22_cast]

theorem mi_ll_match_spec_formula_witness :
    corpusW ≠ [] ∧
    ContingencyTable.make "A" "B" corpusW =
      .ok (ContingencyTable.ofCorpus "A" "B" corpusW) ∧
    ((ContingencyTable.ofCorpus "A" "B" corpusW).mutual_information =
        miSpec (ContingencyTable.ofCorpus "A" "B" corpusW) ∧
      (ContingencyTable.ofCorpus "A" "B" corpusW).log_likelihood =
        llSpec (ContingencyTable.ofCorpus "A" "B" corpusW)) :=
  ⟨by decide, make_ok_of_ne_nil "A" "B" corpusW (by decide),
    mi_ll_match_spec_formula "A" "B" corpusW (by decide) _
      (make_ok_of_ne_nil "A" "B" corpusW (by decide))⟩

/-- C2: `local_mutual_information` returns `0` exactly when the observed
co-occurrence count is `0`, and otherwise `log2(O / E)` with
`E = freq_i * freq_j / N`, `N` being the total item-occurrence count. -/
theorem lmi_matches_spec (i j : Item) (c : List Basket) :
    local_mutual_information i j c =
      if count11 i j c = 0 then 0
      else Real.logb 2 ((count11 i j c : ℝ) /
        ((freq i c : ℝ) * (freq j c : ℝ) / (totalOccurrences c : ℝ))) := by
  rw [local_mutual_information]
  split_ifs with h
  · rfl
  · congr 1
    push_cast
    ring

/-- The C3 invariants for a contingency table built over `numBaskets`
baskets. -/
def tableInvariants (t : ContingencyTable) (numBaskets : ℕ) : Prop :=
  t.O_11 + t.O_12 + t.O_21 + t.O_22 = t.N ∧
  t.N = numBaskets ∧
  t.R_1 + t.R_2 = t.N ∧
  t.C_1 + t.C_2 = t.N ∧
  t.R_1 = t.O_11 + t.O_12 ∧
  t.C_1 = t.O_11 + t.O_21 ∧
  0 ≤ t.E_11 ∧ 0 ≤ t.E_12 ∧ 0 ≤ t.E_21 ∧ 0 ≤ t.E_22

/-- The invariants hold for every constructed table (shared helper). -/
theorem invariants_ofCorpus (i j : Item) (c : List Basket) :
    tableInvariants (ContingencyTable.ofCorpus i j c) c.length := by
  unfold tableInvariants
  refine ⟨?_, ofCorpus_N_eq_length i j c, ?_, ?_, rfl, rfl, ?_, ?_, ?_, ?_⟩
  · simp only [ofCorpus_O_11, ofCorpus_O_12, ofCorpus_O_21, ofCorpus_O_22,
      ofCorpus_N]
    omega
  · simp only [ofCorpus_R_1, ofCorpus_R_2, ofCorpus_N]
    omega
  · rfl
  · rw [ofCorpus_E_11]
    positivity
  · rw [ofCorpus_E_12]
    positivity
  · rw [ofCorpus_E_21]
    positivity
  · rw [ofCorpus_E_22]
    positivity

/-- C3: the table built from any pair of items over a non-empty corpus
satisfies the marginal/total invariants, its total `N` is the number of
baskets, and every expected count is nonnegative. -/
theorem table_invariants_hold (i j : Item) (c : List Basket) (_hc : c ≠ []) :
    tableInvariants (ContingencyTable.ofCorpus i j c) c.length :=
  invariants_ofCorpus i j c

theorem table_invariants_hold_witness :
    corpusW ≠ [] ∧
    tableInvariants (ContingencyTable.ofCorpus "A" "B" corpusW)
      corpusW.length :=
  ⟨by decide, table_invariants_hold "A" "B" corpusW (by decide)⟩

/-- C4 counterexample: on the empty corpus, construction fails with
Python's `ZeroDivisionError`, which is not a descriptive
`invalidInput`-style error. -/
theorem make_empty_corpus_error_kind :
    ContingencyTable.make "A" "B" [] = .error .zeroDivisionError ∧
    isInvalidInputError (ContingencyTable.make "A" "B" []) = false := by
  exact ⟨rfl, rfl⟩

/-- C4 amended: on the empty corpus, `ContingencyTable` construction fails
synchronously with `ZeroDivisionError` (no NaN/Infinity result), while
`local_mutual_information` fully succeeds and returns `0`. -/
theorem empty_corpus_behavior (i j : Item) :
    ContingencyTable.make i j [] = .error .zeroDivisionError ∧
    local_mutual_information i j [] = 0 := by
  exact ⟨rfl, rfl⟩

/-- The three metric symmetries of C5 for the pair `i`, `j` over `c`. -/
def metricsSymmetric (i j : Item) (c : List Basket) : Prop :=
  (ContingencyTable.ofCorpus i j c).mutual_information =
    (ContingencyTable.ofCorpus j i c).mutual_information ∧
  (ContingencyTable.ofCorpus i j c).log_likelihood =
    (ContingencyTable.ofCorpus j i c).log_likelihood ∧
  local_mutual_information i j c = local_mutual_information j i c

/-- C5: all three metrics are symmetric in the two item arguments. -/
theorem metrics_symmetric (i j : Item) (c : List Basket)
    (_hij : i ≠ j) (_hc : c ≠ []) : metricsSymmetric i j c := by
  have e11 : (ContingencyTable.ofCorpus j i c).E_11 =
      (ContingencyTable.ofCorpus i j c).E_11 := by
    rw [ofCorpus_E_11 j i c, ofCorpus_E_11 i j c, count11_swap i j c,
      count12_swap i j c, count21_swap i j c, count22_swap i j c]
    push_cast
    ring
  have e12 : (ContingencyTable.ofCorpus j i c).E_12 =
      (ContingencyTable.ofCorpus i j c).E_21 := by
    rw [ofCorpus_E_12 j i c, ofCorpus_E_21 i j c, count11_swap i j c,
      count12_swap i j c, count21_swap i j c, count22_swap i j c]
    push_cast
    ring
  have e21 : (ContingencyTable.ofCorpus j i c).E_21 =
      (ContingencyTable.ofCorpus i j c).E_12 := by
    rw [ofCorpus_E_21 j i c, ofCorpus_E_12 i j c, count11_swap i j c,
      count12_swap i j c, count21_swap i j c, count22_swap i j c]
    push_cast
    ring
  have e22 : (ContingencyTable.ofCorpus j i c).E_22 =
      (ContingencyTable.ofCorpus i j c).E_22 := by
    rw [ofCorpus_E_22 j i c, ofCorpus_E_22 i j c, count11_swap i j c,
      count12_swap i j c, count21_swap i j c, count22_swap i j c]
    push_cast
    ring
  refine ⟨?_, ?_, ?_⟩
  · simp only [ContingencyTable.mutual_information, ofCorpus_O_11,
      ofCorpus_O_12, ofCorpus_O_21, ofCorpus_O_22, e11, e12, e21, e22,
      count11_swap i j c, count12_swap i j c, count21_swap i j c,
      count22_swap i j c]
    ring
  · simp only [ContingencyTable.log_likelihood, ofCorpus_O_11,
      ofCorpus_O_12, ofCorpus_O_21, ofCorpus_O_22, e11, e12, e21, e22,
      count11_swap i j c, count12_swap i j c, count21_swap i j c,
      count22_swap i j c]
    ring
  · simp only [local_mutual_information, count11_swap i j c,
      Nat.mul_comm (freq j c) (freq i c)]

theorem metrics_symmetric_witness :
    ("A" : Item) ≠ "B" ∧ corpusW ≠ [] ∧ metricsSymmetric "A" "B" corpusW :=
  ⟨by decide, by decide, metrics_symmetric "A" "B" corpusW (by decide) (by decide)⟩

/-- The four exact expectation-marginal identities of C6. -/
def expectationMarginals (t : ContingencyTable) : Prop :=
  t.E_11 + t.E_12 = (t.R_1 : ℚ) ∧
  t.E_21 + t.E_22 = (t.R_2 : ℚ) ∧
  t.E_11 + t.E_21 = (t.C_1 : ℚ) ∧
  t.E_12 + t.E_22 = (t.C_2 : ℚ)

/-- C6: over a non-empty corpus the expected counts sum (exactly, in the
rational arithmetic that models the float computation) to the observed
marginals. -/
theorem expectation_marginals_match (i j : Item) (c : List Basket)
    (hc : c ≠ []) : expectationMarginals (ContingencyTable.ofCorpus i j c) := by
  have hlen : c.length ≠ 0 := by simpa [List.length_eq_zero] using hc
  have hN : (ContingencyTable.ofCorpus i j c).N ≠ 0 := by
    rw [ofCorpus_N_eq_length]
    exact hlen
  rw [ofCorpus_N] at hN
  have hQ : (((count11 i j c + count21 i j c) +
      (count12 i j c + count22 i j c) : ℕ) : ℚ) ≠ 0 := Nat.cast_ne_zero.mpr hN
  unfold expectationMarginals
  rw [ofCorpus_E_11, ofCorpus_E_12, ofCorpus_E_21, ofCorpus_E_22,
    ofCorpus_R_1, ofCorpus_R_2, ofCorpus_C_1, ofCorpus_C_2]
  refine ⟨?_, ?_, ?_, ?_⟩ <;> rw [div_add_div_same, div_eq_iff hQ] <;>
    push_cast <;> ring

theorem expectation_marginals_match_witness :
    corpusW ≠ [] ∧
    expectationMarginals (ContingencyTable.ofCorpus "A" "B" corpusW) :=
  ⟨by decide, expectation_marginals_match "A" "B" corpusW (by decide)⟩

/-- A `mutual_information` summand vanishes when the observed count equals
the expected count. -/
theorem miTerm_eq_zero_of_cast_eq (O : ℕ) (E : ℚ) (h : (O : ℚ) = E) :
    miTerm O E = 0 := by
  unfold miTerm
  split_ifs with hO
  · have hO' : (O : ℝ) ≠ 0 := Nat.cast_ne_zero.mpr hO.ne'
    have hE : (E : ℝ) = (O : ℝ) := by
      rw [← h]
      norm_cast
    rw [hE, div_self hO', Real.logb_one, mul_zero]
  · rfl

/-- A `log_likelihood` summand vanishes when the observed count equals the
expected count. -/
theorem llTerm_eq_zero_of_cast_eq (O : ℕ) (E : ℚ) (h : (O : ℚ) = E) :
    llTerm O E = 0 := by
  unfold llTerm
  split_ifs with hO
  · have hO' : (O : ℝ) ≠ 0 := Nat.cast_ne_zero.mpr hO.ne'
    have hE : (E : ℝ) = (O : ℝ) := by
      rw [← h]
      norm_cast
    rw [hE, div_self hO', Real.log_one, mul_zero]
  · rfl

/-- C7: if the observed counts factorize exactly under independence
(`O_11 * N = R_1 * C_1`), both `mutual_information` and `log_likelihood`
evaluate to exactly `0`. -/
theorem independence_null_zero (i j : Item) (c : List Basket)
    (_hij : i ≠ j) (hc : c ≠ [])
    (hfac : (ContingencyTable.ofCorpus i j c).O_11 *
        (ContingencyTable.ofCorpus i j c).N =
      (ContingencyTable.ofCorpus i j c).R_1 *
        (ContingencyTable.ofCorpus i j c).C_1) :
    (ContingencyTable.ofCorpus i j c).mutual_information = 0 ∧
    (ContingencyTable.ofCorpus i j c).log_likelihood = 0 := by
  rw [ofCorpus_O_11, ofCorpus_N, ofCorpus_R_1, ofCorpus_C_1] at hfac
  have hlen : c.length ≠ 0 := by simpa [List.length_eq_zero] using hc
  have hNnat : (count11 i j c + count21 i j c) +
      (count12 i j c + count22 i j c) ≠ 0 := by
    have h := ofCorpus_N_eq_length i j c
    rw [ofCorpus_N] at h
    omega
  have hQN : ((((count11 i j c + count21 i j c) +
      (count12 i j c + count22 i j c)) : ℕ) : ℚ) ≠ 0 :=
    Nat.cast_ne_zero.mpr hNnat
  have h2 : (count11 i j c : ℚ) *
      ((count11 i j c : ℚ) + (count21 i j c : ℚ) +
        ((count12 i j c : ℚ) + (count22 i j c : ℚ))) =
      ((count11 i j c : ℚ) + (count12 i j c : ℚ)) *
        ((count11 i j c : ℚ) + (count21 i j c : ℚ)) := by
    exact_mod_cast hfac
  have key : (count11 i j c : ℚ) * (count22 i j c : ℚ) =
      (count12 i j c : ℚ) * (count21 i j c : ℚ) := by
    linear_combination h2
  have h11 : ((count11 i j c : ℕ) : ℚ) =
      (((count11 i j c + count12 i j c) * (count11 i j c + count21 i j c) : ℕ) : ℚ) /
        ((((count11 i j c + count21 i j c) + (count12 i j c + count22 i j c) : ℕ)) : ℚ) := by
    rw [eq_div_iff hQN]
    push_cast
    linear_combination h2
  have h12 : ((count12 i j c : ℕ) : ℚ) =
      (((count11 i j c + count12 i j c) * (count12 i j c + count22 i j c) : ℕ) : ℚ) /
        ((((count11 i j c + count21 i j c) + (count12 i j c + count22 i j c) : ℕ)) : ℚ) := by
    rw [eq_div_iff hQN]
    push_cast
    linear_combination -key
  have h21 : ((count21 i j c : ℕ) : ℚ) =
      (((count21 i j c + count22 i j c) * (count11 i j c + count21 i j c) : ℕ) : ℚ) /
        ((((count11 i j c + count21 i j c) + (count12 i j c + count22 i j c) : ℕ)) : ℚ) := by
    rw [eq_div_iff hQN]
    push_cast
    linear_combination -key
  have h22 : ((count22 i j c : ℕ) : ℚ) =
      (((count21 i j c + count22 i j c) * (count12 i j c + count22 i j c) : ℕ) : ℚ) /
        ((((count11 i j c + count21 i j c) + (count12 i j c + count22 i j c) : ℕ)) : ℚ) := by
    rw [eq_div_iff hQN]
    push_cast
    linear_combination key
  constructor
  · simp only [ContingencyTable.mutual_information, ofCorpus_O_11,
      ofCorpus_O_12, ofCorpus_O_21, ofCorpus_O_22, ofCorpus_E_11,
      ofCorpus_E_12, ofCorpus_E_21, ofCorpus_E_22]
    rw [miTerm_eq_zero_of_cast_eq _ _ h11, miTerm_eq_zero_of_cast_eq _ _ h12,
      miTerm_eq_zero_of_cast_eq _ _ h21, miTerm_eq_zero_of_cast_eq _ _ h22]
    norm_num
  · simp only [ContingencyTable.log_likelihood, ofCorpus_O_11,
      ofCorpus_O_12, ofCorpus_O_21, ofCorpus_O_22, ofCorpus_E_11,
      ofCorpus_E_12, ofCorpus_E_21, ofCorpus_E_22]
    rw [llTerm_eq_zero_of_cast_eq _ _ h11, llTerm_eq_zero_of_cast_eq _ _ h12,
      llTerm_eq_zero_of_cast_eq _ _ h21, llTerm_eq_zero_of_cast_eq _ _ h22]
    norm_num

/-- A one-basket corpus on which the observed counts factorize exactly. -/
def corpusU : List Basket := [{"A", "B"}]

theorem independence_null_zero_witness :
    ("A" : Item) ≠ "B" ∧ corpusU ≠ [] ∧
    (ContingencyTable.ofCorpus "A" "B" corpusU).O_11 *
        (ContingencyTable.ofCorpus "A" "B" corpusU).N =
      (ContingencyTable.ofCorpus "A" "B" corpusU).R_1 *
        (ContingencyTable.ofCorpus "A" "B" corpusU).C_1 ∧
    ((ContingencyTable.ofCorpus "A" "B" corpusU).mutual_information = 0 ∧
      (ContingencyTable.ofCorpus "A" "B" corpusU).log_likelihood = 0) :=
  ⟨by decide, by decide, by decide,
    independence_null_zero "A" "B" corpusU (by decide) (by decide) (by decide)⟩

/-- C8: the spec's concrete scenario on the corpus
`[{"A","B"}, {"A"}, {"B"}, {"C"}]`: all table fields for the pair
`("A","B")`, `mutual_information = 0`, and the `local_mutual_information`
intermediate values `O = 1`, `freq_A = freq_B = 2`, total occurrences `5`,
`E = 4/5`, result `log2(5/4)` (that is, `log2(1.25)`). -/
theorem concrete_scenario :
    (ContingencyTable.ofCorpus "A" "B" corpusW).O_11 = 1 ∧
    (ContingencyTable.ofCorpus "A" "B" corpusW).O_12 = 1 ∧
    (ContingencyTable.ofCorpus "A" "B" corpusW).O_21 = 1 ∧
    (ContingencyTable.ofCorpus "A" "B" corpusW).O_22 = 1 ∧
    (ContingencyTable.ofCorpus "A" "B" corpusW).R_1 = 2 ∧
    (ContingencyTable.ofCorpus "A" "B" corpusW).R_2 = 2 ∧
    (ContingencyTable.ofCorpus "A" "B" corpusW).C_1 = 2 ∧
    (ContingencyTable.ofCorpus "A" "B" corpusW).C_2 = 2 ∧
    (ContingencyTable.ofCorpus "A" "B" corpusW).N = 4 ∧
    (ContingencyTable.ofCorpus "A" "B" corpusW).E_11 = 1 ∧
    (ContingencyTable.ofCorpus "A" "B" corpusW).E_12 = 1 ∧
    (ContingencyTable.ofCorpus "A" "B" corpusW).E_21 = 1 ∧
    (ContingencyTable.ofCorpus "A" "B" corpusW).E_22 = 1 ∧
    (ContingencyTable.ofCorpus "A" "B" corpusW).mutual_information = 0 ∧
    count11 "A" "B" corpusW = 1 ∧
    freq "A" corpusW = 2 ∧
    freq "B" corpusW = 2 ∧
    totalOccurrences corpusW = 5 ∧
    (((freq "A" corpusW * freq "B" corpusW : ℕ) : ℚ) /
      ((totalOccurrences corpusW : ℕ) : ℚ)) = 4 / 5 ∧
    local_mutual_information "A" "B" corpusW = Real.logb 2 (5 / 4) := by
  have hc11 : count11 "A" "B" corpusW = 1 := by decide
  have hc12 : count12 "A" "B" corpusW = 1 := by decide
  have hc21 : count21 "A" "B" corpusW = 1 := by decide
  have hc22 : count22 "A" "B" corpusW = 1 := by decide
  have hO11 : (ContingencyTable.ofCorpus "A" "B" corpusW).O_11 = 1 := by decide
  have hO12 : (ContingencyTable.ofCorpus "A" "B" corpusW).O_12 = 1 := by decide
  have hO21 : (ContingencyTable.ofCorpus "A" "B" corpusW).O_21 = 1 := by decide
  have hO22 : (ContingencyTable.ofCorpus "A" "B" corpusW).O_22 = 1 := by decide
  have hE11 : (ContingencyTable.ofCorpus "A" "B" corpusW).E_11 = 1 := by
    rw [ofCorpus_E_11, hc11, hc12, hc21, hc22]
    norm_num
  have hE12 : (ContingencyTable.ofCorpus "A" "B" corpusW).E_12 = 1 := by
    rw [ofCorpus_E_12, hc11, hc12, hc21, hc22]
    norm_num
  have hE21 : (ContingencyTable.ofCorpus "A" "B" corpusW).E_21 = 1 := by
    rw [ofCorpus_E_21, hc11, hc12, hc21, hc22]
    norm_num
  have hE22 : (ContingencyTable.ofCorpus "A" "B" corpusW).E_22 = 1 := by
    rw [ofCorpus_E_22, hc11, hc12, hc21, hc22]
    norm_num
  have hmi : (ContingencyTable.ofCorpus "A" "B" corpusW).mutual_information = 0 := by
    simp only [ContingencyTable.mutual_information, hO11, hO12, hO21, hO22,
      hE11, hE12, hE21, hE22]
    rw [miTerm_eq_zero_of_cast_eq 1 1 (by norm_num)]
    norm_num
  have hfA : freq "A" corpusW = 2 := by decide
  have hfB : freq "B" corpusW = 2 := by decide
  have htot : totalOccurrences corpusW = 5 := by decide
  have hE : (((freq "A" corpusW * freq "B" corpusW : ℕ) : ℚ) /
      ((totalOccurrences corpusW : ℕ) : ℚ)) = 4 / 5 := by
    rw [hfA, hfB, htot]
    norm_num
  have hlmi : local_mutual_information "A" "B" corpusW = Real.logb 2 (5 / 4) := by
    rw [local_mutual_information, hc11, hE]
    rw [if_neg (by norm_num)]
    congr 1
    push_cast
    norm_num
  exact ⟨hO11, hO12, hO21, hO22, by decide, by decide, by decide, by decide,
    by decide, hE11, hE12, hE21, hE22, hmi, hc11, hfA, hfB,
    htot, hE, hlmi⟩

/-- The safety facts of C9: whenever a cell guard `O_cell > 0` holds, the
corresponding expected count is strictly positive and so is the logarithm
argument `O_cell / E_cell`; and in `local_mutual_information` (for distinct
items) a positive co-occurrence count forces `freq_i >= 1`, `freq_j >= 1`,
a total occurrence count of at least `2`, a positive expected value and a
positive logarithm argument. -/
def logArgumentsSafe (i j : Item) (c : List Basket) : Prop :=
  (0 < (ContingencyTable.ofCorpus i j c).O_11 →
    0 < (ContingencyTable.ofCorpus i j c).E_11 ∧
    0 < ((ContingencyTable.ofCorpus i j c).O_11 : ℝ) /
      ((ContingencyTable.ofCorpus i j c).E_11 : ℝ)) ∧
  (0 < (ContingencyTable.ofCorpus i j c).O_12 →
    0 < (ContingencyTable.ofCorpus i j c).E_12 ∧
    0 < ((ContingencyTable.ofCorpus i j c).O_12 : ℝ) /
      ((ContingencyTable.ofCorpus i j c).E_12 : ℝ)) ∧
  (0 < (ContingencyTable.ofCorpus i j c).O_21 →
    0 < (ContingencyTable.ofCorpus i j c).E_21 ∧
    0 < ((ContingencyTable.ofCorpus i j c).O_21 : ℝ) /
      ((ContingencyTable.ofCorpus i j c).E_21 : ℝ)) ∧
  (0 < (ContingencyTable.ofCorpus i j c).O_22 →
    0 < (ContingencyTable.ofCorpus i j c).E_22 ∧
    0 < ((ContingencyTable.ofCorpus i j c).O_22 : ℝ) /
      ((ContingencyTable.ofCorpus i j c).E_22 : ℝ)) ∧
  (i ≠ j → 0 < count11 i j c →
    1 ≤ freq i c ∧ 1 ≤ freq j c ∧ 2 ≤ totalOccurrences c ∧
    0 < (((freq i c * freq j c : ℕ) : ℚ) / ((totalOccurrences c : ℕ) : ℚ)) ∧
    0 < ((count11 i j c : ℝ) /
      ((((freq i c * freq j c : ℕ) : ℚ) /
        ((totalOccurrences c : ℕ) : ℚ) : ℚ) : ℝ)))

/-- C9 counterexample: with `i = j = "A"` over the corpus `[{"A"}]` the
co-occurrence count is positive yet the total occurrence count is below 2,
so the claim's unrestricted "O > 0 implies N >= 2" fails. -/
theorem lmi_small_basket_counterexample :
    0 < count11 "A" "A" [({"A"} : Basket)] ∧
    totalOccurrences [({"A"} : Basket)] < 2 := by decide

/-- C9 amended: over any non-empty corpus every guarded logarithm argument
in the two table metrics is strictly positive, and in
`local_mutual_information` the same holds, with the `N >= 2` bound
restricted to distinct items. -/
theorem no_log_domain_errors (i j : Item) (c : List Basket)
    (_hc : c ≠ []) : logArgumentsSafe i j c := by
  unfold logArgumentsSafe
  refine ⟨?_, ?_, ?_, ?_, ?_⟩
  · intro h
    rw [ofCorpus_O_11] at h
    have hE : (0:ℚ) <
        (((count11 i j c + count12 i j c) * (count11 i j c + count21 i j c) : ℕ) : ℚ) /
          ((((count11 i j c + count21 i j c) + (count12 i j c + count22 i j c) : ℕ)) : ℚ) := by
      apply div_pos
      · exact_mod_cast Nat.mul_pos (by omega) (by omega)
      · exact_mod_cast (show 0 < (count11 i j c + count21 i j c) +
          (count12 i j c + count22 i j c) by omega)
    refine ⟨?_, ?_⟩
    · rw [ofCorpus_E_11]
      exact hE
    · rw [ofCorpus_O_11, ofCorpus_E_11]
      exact div_pos (by exact_mod_cast h) (Rat.cast_pos.mpr hE)
  · intro h
    rw [ofCorpus_O_12] at h
    have hE : (0:ℚ) <
        (((count11 i j c + count12 i j c) * (count12 i j c + count22 i j c) : ℕ) : ℚ) /
          ((((count11 i j c + count21 i j c) + (count12 i j c + count22 i j c) : ℕ)) : ℚ) := by
      apply div_pos
      · exact_mod_cast Nat.mul_pos (by omega) (by omega)
      · exact_mod_cast (show 0 < (count11 i j c + count21 i j c) +
          (count12 i j c + count22 i j c) by omega)
    refine ⟨?_, ?_⟩
    · rw [ofCorpus_E_12]
      exact hE
    · rw [ofCorpus_O_12, ofCorpus_E_12]
      exact div_pos (by exact_mod_cast h) (Rat.cast_pos.mpr hE)
  · intro h
    rw [ofCorpus_O_21] at h
    have hE : (0:ℚ) <
        (((count21 i j c + count22 i j c) * (count11 i j c + count21 i j c) : ℕ) : ℚ) /
          ((((count11 i j c + count21 i j c) + (count12 i j c + count22 i j c) : ℕ)) : ℚ) := by
      apply div_pos
      · exact_mod_cast Nat.mul_pos (by omega) (by omega)
      · exact_mod_cast (show 0 < (count11 i j c + count21 i j c) +
          (count12 i j c + count22 i j c) by omega)
    refine ⟨?_, ?_⟩
    · rw [ofCorpus_E_21]
      exact hE
    · rw [ofCorpus_O_21, ofCorpus_E_21]
      exact div_pos (by exact_mod_cast h) (Rat.cast_pos.mpr hE)
  · intro h
    rw [ofCorpus_O_22] at h
    have hE : (0:ℚ) <
        (((count21 i j c + count22 i j c) * (count12 i j c + count22 i j c) : ℕ) : ℚ) /
          ((((count11 i j c + count21 i j c) + (count12 i j c + count22 i j c) : ℕ)) : ℚ) := by
      apply div_pos
      · exact_mod_cast Nat.mul_pos (by omega) (by omega)
      · exact_mod_cast (show 0 < (count11 i j c + count21 i j c) +
          (count12 i j c + count22 i j c) by omega)
    refine ⟨?_, ?_⟩
    · rw [ofCorpus_E_22]
      exact hE
    · rw [ofCorpus_O_22, ofCorpus_E_22]
      exact div_pos (by exact_mod_cast h) (Rat.cast_pos.mpr hE)
  · intro hij hO
    have hO' : 0 < List.countP
        (fun b => decide (i ∈ b) && decide (j ∈ b)) c := hO
    obtain ⟨b, hbc, hb⟩ := List.countP_pos_iff.mp hO'
    have hbi : i ∈ b := by
      have := (Bool.and_eq_true _ _).mp hb
      exact of_decide_eq_true this.1
    have hbj : j ∈ b := by
      have := (Bool.and_eq_true _ _).mp hb
      exact of_decide_eq_true this.2
    have hfi : 0 < freq i c :=
      List.countP_pos_iff.mpr ⟨b, hbc, decide_eq_true hbi⟩
    have hfj : 0 < freq j c :=
      List.countP_pos_iff.mpr ⟨b, hbc, decide_eq_true hbj⟩
    have hcard : 2 ≤ b.card := Finset.one_lt_card.mpr ⟨i, hbi, j, hbj, hij⟩
    have hble : b.card ≤ totalOccurrences c :=
      List.single_le_sum (fun x _ => Nat.zero_le x) _
        (List.mem_map_of_mem Finset.card hbc)
    have htot : 2 ≤ totalOccurrences c := le_trans hcard hble
    have hEpos : (0:ℚ) < (((freq i c * freq j c : ℕ) : ℚ) /
        ((totalOccurrences c : ℕ) : ℚ)) := by
      apply div_pos
      · exact_mod_cast Nat.mul_pos hfi hfj
      · exact_mod_cast (show 0 < totalOccurrences c by omega)
    refine ⟨hfi, hfj, htot, hEpos, ?_⟩
    exact div_pos (by exact_mod_cast hO) (Rat.cast_pos.mpr hEpos)

theorem no_log_domain_errors_witness :
    corpusW ≠ [] ∧ logArgumentsSafe "A" "B" corpusW :=
  ⟨by decide, no_log_domain_errors "A" "B" corpusW (by decide)⟩

/-- The degenerate-but-defined behaviour of C10 when both item arguments
are equal. -/
def degenerateDiagonal (i : Item) (c : List Basket) : Prop :=
  ContingencyTable.make i i c = .ok (ContingencyTable.ofCorpus i i c) ∧
  (ContingencyTable.ofCorpus i i c).O_12 = 0 ∧
  (ContingencyTable.ofCorpus i i c).O_21 = 0 ∧
  (ContingencyTable.ofCorpus i i c).O_11 = freq i c ∧
  (ContingencyTable.ofCorpus i i c).O_22 =
    c.length - (ContingencyTable.ofCorpus i i c).O_11 ∧
  tableInvariants (ContingencyTable.ofCorpus i i c) c.length ∧
  (freq i c = 0 → local_mutual_information i i c = 0)

/-- C10: with `i == j` and a non-empty corpus, construction succeeds (no
error), the off-diagonal cells are `0`, `O_11` counts the baskets
containing `i`, `O_22` is the complement, all table invariants still hold,
and `local_mutual_information i i` is defined (returning `0` when `i`
appears in no basket). -/
theorem equal_items_degenerate (i : Item) (c : List Basket) (hc : c ≠ []) :
    degenerateDiagonal i c := by
  have h11 : count11 i i c = freq i c := count11_self i c
  have h12 : count12 i i c = 0 := count12_self i c
  have h21 : count21 i i c = 0 := count21_self i c
  have hpart := counts_partition i i c
  unfold degenerateDiagonal
  refine ⟨make_ok_of_ne_nil i i c hc, ?_, ?_, ?_, ?_,
    invariants_ofCorpus i i c, ?_⟩
  · rw [ofCorpus_O_12]
    exact h12
  · rw [ofCorpus_O_21]
    exact h21
  · rw [ofCorpus_O_11]
    exact h11
  · rw [ofCorpus_O_22, ofCorpus_O_11]
    omega
  · intro hf
    have hz : count11 i i c = 0 := by rw [h11, hf]
    simp [local_mutual_information, hz]

theorem equal_items_degenerate_witness :
    corpusW ≠ [] ∧ degenerateDiagonal "A" corpusW :=
  ⟨by decide, equal_items_degenerate "A" corpusW (by decide)⟩
